import Mathlib

/-!
Verification development for the valhalla-rs native dependency resolution and
link-directive synthesis engine, embedded from the two build drivers:
the desktop driver (build.rs, fn main) and the Android driver
(src_build/android.rs, fn build).

The drivers are effectful Rust programs that read the process environment and
the filesystem and print cargo directive lines. The embedding makes both
effects explicit: the environment is a map from variable names to optional
values, the filesystem is a record of directory listings (filenames in
enumeration order, as fs::read_dir yields them) and a file-existence
predicate, and each println of a directive becomes an element of an output
list of strings, in emission order.

Rust standard string and path operations are modelled on the character data
of Lean strings. Paths are modelled as strings in normalized form (no
trailing slash, no empty or dot components), which matches every path the
drivers construct or receive from cargo environment variables.
-/

/-- A process environment: maps a variable name to its value when set. -/
abbrev Env : Type := String → Option String

/-- Filesystem state visible to a build driver: directory listings (filenames
in enumeration order) and file existence. A directory that cannot be read
yields none, which the source treats like an empty listing. -/
structure FileSystem where
  readDir : String → Option (List String)
  pathExists : String → Bool

/-- Models Rust str::strip_prefix: the remainder after the given leading
pattern, when present. -/
def dropPre (s p : String) : Option String :=
  (s.data.dropPrefix? p.data).map (fun l => ⟨l⟩)

/-- Models Rust str::strip_suffix: what remains before the given trailing
pattern, when present. -/
def dropSuf (s p : String) : Option String :=
  (s.data.dropSuffix? p.data).map (fun l => ⟨l⟩)

/-- Models Rust str::starts_with. -/
def strStarts (s p : String) : Bool := p.data.isPrefixOf s.data

/-- Models Rust str::ends_with. -/
def strEnds (s p : String) : Bool := p.data.isSuffixOf s.data

/-- Models Rust str::contains for a substring pattern. -/
def strContains (s p : String) : Bool := decide (p.data <:+: s.data)

/-- Models Rust str::replace of the dash character by an underscore, as in
target.replace(the dash char, an underscore) normalizing a target triple. -/
def underscore (s : String) : String :=
  ⟨s.data.map (fun c => if c = '-' then '_' else c)⟩

/-- Models Rust Path::file_name on normalized paths: the final non-empty,
non-dot component; none for a path that ends in a parent-dir component or
has no component at all. -/
def file_name (p : String) : Option String :=
  let comps := (p.data.splitOnP (· == '/')).filter (fun c => !c.isEmpty && c ≠ ['.'])
  match comps.getLast? with
  | none => none
  | some c => if c = ['.', '.'] then none else some ⟨c⟩

/-- Models dir_of from both drivers: Path::parent displayed, falling back to
the path itself when there is no parent. On a single-component relative path
the parent displays as the empty string, as in Rust. -/
def dir_of (p : String) : String :=
  let comps := p.data.splitOnP (· == '/')
  match comps with
  | [] => p
  | [_] => ""
  | _ =>
    let d := comps.dropLast
    if d = [[]] then "/" else ⟨List.intercalate ['/'] d⟩

/-- Models Rust Path::join of a directory with a relative component, as the
drivers use it for dir.join of a lib subdirectory and for directory entries. -/
def pathJoin (d n : String) : String :=
  if d = "" then n else d ++ "/" ++ n

/-- Models Rust Path::extension of a bare file name: the portion after the
final dot, none when there is no dot or the only dot is the leading one. -/
def extOfName (fname : String) : Option String :=
  match fname.data.splitOnP (· == '.') with
  | [] => none
  | [_] => none
  | first :: rest =>
    if first.isEmpty && rest.length == 1 then none
    else (rest.getLast?).map (fun c => (⟨c⟩ : String))

/-- Models Rust Path::extension of a full path: the extension of its file
name component. -/
def pathExt (p : String) : Option String :=
  (file_name p).bind extOfName

/-- first_env, identical in build.rs and android.rs: the first name in the
list whose environment value is set and non-empty. -/
def first_env : List String → Env → Option String
  | [], _ => none
  | k :: rest, env =>
    match env k with
    | some v => if v = "" then first_env rest env else some v
    | none => first_env rest env

/-- keys, identical in build.rs and android.rs: the candidate list for a base
variable name, the triple-suffixed name first. -/
def keys (base triple_us : String) : List String :=
  [base ++ "_" ++ triple_us, base]

/-- stem_from_lib on the file name component, the body shared by both
drivers after Path::file_name extraction: strip the lib lead-in, then the
trailing .a or .so. -/
def stem_from_fname (fname : String) : Option String :=
  match dropPre fname "lib" with
  | none => none
  | some s =>
    match dropSuf s ".a" with
    | some t => some t
    | none => dropSuf s ".so"

/-- stem_from_lib, identical in build.rs and android.rs: the canonical link
stem of a lib-prefixed .a or .so artifact path. -/
def stem_from_lib (path : String) : Option String :=
  (file_name path).bind stem_from_fname

/-- The directory scan shared by the two locators: the last lib-prefixed
entry of each kind, classified by extension, as full paths. Entry paths are
dir joined with the entry name; the starts_with test and the extension run on
the entry file name, as Path::file_name and Path::extension do on such paths. -/
def scanLibDir (fs : FileSystem) (dir pfx : String) : Option String × Option String :=
  match fs.readDir dir with
  | none => (none, none)
  | some entries =>
    entries.foldl
      (fun acc name =>
        if strStarts name ("lib" ++ pfx) then
          match extOfName name with
          | some e =>
            if e = "a" then (some (pathJoin dir name), acc.2)
            else if e = "so" then (acc.1, some (pathJoin dir name))
            else acc
          | none => acc
        else acc)
      (none, none)

/-- Embeds find_lib_with_prefix from build.rs (desktop): pick the static .a
artifact if available, otherwise the dynamic .so one. -/
def find_lib_with_pre (fs : FileSystem) (dir pfx : String) : Option String :=
  let s := scanLibDir fs dir pfx
  s.1.or s.2

/-- The inverted-preference policy flag of the Android driver, read inside
its locator: ANDROID_PREFER_DYNAMIC set to the string 1. -/
def android_prefer_dynamic (env : Env) : Bool :=
  env "ANDROID_PREFER_DYNAMIC" == some "1"

namespace Android

/-- Embeds find_lib_with_prefix from android.rs: like the desktop one, but
the preference between the .a and the .so artifact inverts when
ANDROID_PREFER_DYNAMIC is 1. -/
def find_lib_with_pre (env : Env) (fs : FileSystem) (dir pfx : String) : Option String :=
  let s := scanLibDir fs dir pfx
  if android_prefer_dynamic env then s.2.or s.1 else s.1.or s.2

end Android

/-- LibKind from android.rs. -/
inductive LibKind : Type
  | Static : LibKind
  | Dylib : LibKind
deriving DecidableEq, Repr

/-- lib_kind from android.rs: classify an artifact path by extension. -/
def lib_kind (path : String) : Option LibKind :=
  match pathExt path with
  | some e => if e = "a" then some LibKind.Static else if e = "so" then some LibKind.Dylib else none
  | none => none

/-- print_link_for from android.rs: one link directive whose kind matches the
artifact extension and whose name is the decomposed stem; nothing when either
decoding fails. -/
def print_link_for (path : String) : List String :=
  match lib_kind path, stem_from_lib path with
  | some LibKind.Static, some stem => ["cargo:rustc-link-lib=static=" ++ stem]
  | some LibKind.Dylib, some stem => ["cargo:rustc-link-lib=" ++ stem]
  | _, _ => []

/-- TARGET as both drivers read it: empty when unset. -/
def targetOf (env : Env) : String := (env "TARGET").getD ""

/-- triple_us: the TARGET triple with dashes replaced by underscores. -/
def tripleUs (env : Env) : String := underscore (targetOf env)

/-- boost_lib resolution, identical in both drivers. -/
def boost_lib (env : Env) : Option String :=
  first_env (keys "Boost_LIBRARY_DIR" (tripleUs env)) env

/-- lz4_dir resolution, identical in both drivers. -/
def lz4_dir (env : Env) : Option String :=
  first_env (keys "LZ4_DIR" (tripleUs env)) env

/-- lz4_lib resolution, identical in both drivers: the LZ4_LIBRARY lookup,
else the conventional static artifact path under lz4_dir. -/
def lz4_lib (env : Env) : Option String :=
  (first_env (keys "LZ4_LIBRARY" (tripleUs env)) env).or
    ((lz4_dir env).map (fun d => d ++ "/lib/liblz4.a"))

/-- pb_dir resolution, identical in both drivers. -/
def pb_dir (env : Env) : Option String :=
  first_env (keys "Protobuf_DIR" (tripleUs env)) env

/-- pb_inc resolution, identical in both drivers. -/
def pb_inc (env : Env) : Option String :=
  first_env (keys "Protobuf_INCLUDE_DIR" (tripleUs env)) env

/-- pb_lib resolution, identical in both drivers: Protobuf_LIBRARY, else
Protobuf_LIBRARIES. -/
def pb_lib (env : Env) : Option String :=
  (first_env (keys "Protobuf_LIBRARY" (tripleUs env)) env).or
    (first_env (keys "Protobuf_LIBRARIES" (tripleUs env)) env)

/-- pb_component from android.rs: PROTOBUF_COMPONENT when set (even empty),
else protobuf-lite on an Android target and protobuf otherwise. -/
def pb_component (env : Env) : String :=
  match env "PROTOBUF_COMPONENT" with
  | some v => v
  | none => if strContains (targetOf env) "android" then "protobuf-lite" else "protobuf"

/-- cxx_stdlib from build.rs (desktop): the CXX_STDLIB value when the
variable is set, else always the shared C++ runtime name. -/
def main_cxx_stdlib (env : Env) : String :=
  (env "CXX_STDLIB").getD "c++_shared"

/-- cxx_stdlib from android.rs: the CXX_STDLIB value when set, else chosen
from the target triple markers. -/
def build_cxx_stdlib (env : Env) : String :=
  match env "CXX_STDLIB" with
  | some v => v
  | none =>
    if strContains (targetOf env) "android" then "c++_shared"
    else if strContains (targetOf env) "apple" then "c++"
    else "stdc++"

/-- The explicit-atomics test, identical in both drivers: the triple contains
the armv7 marker or the androideabi marker. -/
def needs_explicit_atomics (target : String) : Bool :=
  strContains target "armv7" || strContains target "androideabi"

/-- The atomics emission step, identical in both drivers: one atomic link
directive exactly when the explicit-atomics test holds. -/
def atomicDirectives (target : String) : List String :=
  if needs_explicit_atomics target then ["cargo:rustc-link-lib=atomic"] else []

/-- The fixed Boost component list, identical in both drivers. -/
def boost_components : List String :=
  ["filesystem", "system", "regex", "date_time", "chrono", "thread"]

/-- The Boost link loop of build.rs (desktop): for each component, the
static-kind directive with the discovered stem, or the static-kind directive
with the generic component name when discovery fails; nothing when an
artifact is found but its name does not decompose. -/
def mainBoostDirectives (fs : FileSystem) (bl : String) : List String :=
  boost_components.flatMap
    (fun comp =>
      match find_lib_with_pre fs bl ("boost_" ++ comp) with
      | some p =>
        match stem_from_lib p with
        | some stem => ["cargo:rustc-link-lib=static=" ++ stem]
        | none => []
      | none => ["cargo:rustc-link-lib=static=boost_" ++ comp])

/-- The Boost link loop of android.rs: print_link_for on the discovered
artifact, or a bare kind-less directive with the generic component name when
discovery fails. -/
def buildBoostDirectives (env : Env) (fs : FileSystem) (bl : String) : List String :=
  boost_components.flatMap
    (fun comp =>
      match Android.find_lib_with_pre env fs bl ("boost_" ++ comp) with
      | some p => print_link_for p
      | none => ["cargo:rustc-link-lib=boost_" ++ comp])

/-- The LZ4 linker section of build.rs (desktop), on the resolved lz4_lib and
lz4_dir values. -/
def mainLZ4Directives (fs : FileSystem) (ll? ld? : Option String) : List String :=
  match ll? with
  | some ll =>
    if fs.pathExists ll then
      ["cargo:rustc-link-search=native=" ++ dir_of ll,
       "cargo:rustc-link-lib=static=" ++ (stem_from_lib ll).getD "lz4"]
    else
      match ld? with
      | some ld =>
        ["cargo:rustc-link-search=native=" ++ ld ++ "/lib",
         "cargo:rustc-link-lib=static=lz4"]
      | none => []
  | none =>
    match ld? with
    | some ld =>
      ["cargo:rustc-link-search=native=" ++ ld ++ "/lib",
       "cargo:rustc-link-lib=static=lz4"]
    | none =>
      ["cargo:warning=LZ4 not explicitly provided; make sure the linker can find it."]

/-- The LZ4 linker section of android.rs, on the resolved lz4_lib and lz4_dir
values. -/
def buildLZ4Directives (env : Env) (fs : FileSystem) (ll? ld? : Option String) : List String :=
  match ll?, ld? with
  | some path, _ =>
    if fs.pathExists path then
      ("cargo:rustc-link-search=native=" ++ dir_of path) :: print_link_for path
    else
      ["cargo:warning=LZ4_LIBRARY set but file not found: " ++ path]
  | none, some dir =>
    let libdir := pathJoin dir "lib"
    ("cargo:rustc-link-search=native=" ++ libdir) ::
      (match Android.find_lib_with_pre env fs libdir "lz4" with
       | some p => print_link_for p
       | none => ["cargo:rustc-link-lib=lz4"])
  | none, none => ["cargo:rustc-link-lib=lz4"]

/-- The Protobuf linker section of build.rs (desktop), on the resolved
pb_lib, pb_dir and pb_inc values. -/
def mainProtobufDirectives (fs : FileSystem) (pl? pd? pi? : Option String) : List String :=
  match pl? with
  | some pl =>
    if fs.pathExists pl then
      ["cargo:rustc-link-search=native=" ++ dir_of pl,
       "cargo:rustc-link-lib=static=" ++ (stem_from_lib pl).getD "protobuf-lite"]
    else
      match pd? with
      | some pd =>
        ["cargo:rustc-link-search=native=" ++ pd ++ "/lib",
         "cargo:rustc-link-lib=static=protobuf-lite"]
      | none =>
        match pi? with
        | some pinc =>
          ["cargo:rustc-link-search=native=" ++ dir_of (pinc ++ "/../lib"),
           "cargo:rustc-link-lib=static=protobuf-lite"]
        | none => ["cargo:rustc-link-lib=static=protobuf-lite"]
  | none => ["cargo:rustc-link-lib=static=protobuf-lite"]

/-- The Protobuf linker section of android.rs, on the resolved pb_lib and
pb_dir values and the chosen component name. -/
def buildProtobufDirectives (env : Env) (fs : FileSystem) (pl? pd? : Option String)
    (comp : String) : List String :=
  match pl? with
  | some file =>
    ("cargo:rustc-link-search=native=" ++ dir_of file) ::
      (if fs.pathExists file then print_link_for file
       else ["cargo:rustc-link-lib=" ++ comp])
  | none =>
    match pd? with
    | some dir =>
      let libdir := pathJoin dir "lib"
      ("cargo:rustc-link-search=native=" ++ libdir) ::
        (match Android.find_lib_with_pre env fs libdir comp with
         | some p => print_link_for p
         | none => ["cargo:rustc-link-lib=" ++ comp])
    | none => ["cargo:rustc-link-lib=" ++ comp]

/-- The full linker-directive stream of build.rs (desktop), from the Valhalla
search path through the atomics step. dst is the CMake output directory
produced by the excluded native build step. -/
def mainLinkerDirectives (env : Env) (fs : FileSystem) (dst : String) : List String :=
  ("cargo:rustc-link-search=" ++ dst ++ "/build/src/") ::
    ((match boost_lib env with
      | some bl => ("cargo:rustc-link-search=native=" ++ bl) :: mainBoostDirectives fs bl
      | none => [])
      ++ mainLZ4Directives fs (lz4_lib env) (lz4_dir env)
      ++ mainProtobufDirectives fs (pb_lib env) (pb_dir env) (pb_inc env)
      ++ ["cargo:rustc-link-lib=" ++ main_cxx_stdlib env, "cargo:rustc-link-lib=z"]
      ++ atomicDirectives (targetOf env))

/-- The full linker-directive stream of android.rs, from the Valhalla search
path through the atomics step. -/
def buildLinkerDirectives (env : Env) (fs : FileSystem) (dst : String) : List String :=
  ("cargo:rustc-link-search=" ++ dst ++ "/build/src/") ::
    ((match boost_lib env with
      | some bl => ("cargo:rustc-link-search=native=" ++ bl) :: buildBoostDirectives env fs bl
      | none => [])
      ++ buildLZ4Directives env fs (lz4_lib env) (lz4_dir env)
      ++ buildProtobufDirectives env fs (pb_lib env) (pb_dir env) (pb_component env)
      ++ ["cargo:rustc-link-lib=" ++ build_cxx_stdlib env, "cargo:rustc-link-lib=z"]
      ++ atomicDirectives (targetOf env))

/-- CompileCommand, identical in both drivers: one record of the compile
command database. -/
structure CompileCommand where
  command : String
  file : String
deriving DecidableEq, Repr

/-- Models Rust str::split_whitespace: maximal non-empty runs between
whitespace characters. -/
def split_whitespace (s : String) : List String :=
  ((s.data.splitOnP Char.isWhitespace).filter (fun w => !w.isEmpty)).map
    (fun w => (⟨w⟩ : String))

/-- The include-collection loop of extract_includes, identical in both
drivers: over token indices in order, a token with the -I lead-in contributes
its remainder, and a token exactly equal to -isystem contributes the next
token when there is one. -/
def collectIncludeArgs (args : List String) : List String :=
  (List.range args.length).foldl
    (fun includes i =>
      let tok := args.getD i ""
      match dropPre tok "-I" with
      | some rest => includes ++ [rest]
      | none =>
        if tok = "-isystem" ∧ i + 1 < args.length then includes ++ [args.getD (i + 1) ""]
        else includes)
    []

/-- extract_includes, identical in both drivers. The filesystem read and the
miniserde parse are external effects; their outcome is the argument: none
models an absent database file, some none a file that fails to parse as the
expected structure, and some (some records) a parsed record list. Each
assert or expect panic of the source becomes the error value carrying the
panic message; a panic returns no partial result, exactly as Except.error
carries none. -/
def extract_includes (db : Option (Option (List CompileCommand)))
    (cpp_source : String) : Except String (List String) :=
  match db with
  | none => Except.error "compile_commands.json not found"
  | some none => Except.error "parse compile_commands.json"
  | some (some commands) =>
    match commands.find? (fun cmd => strEnds cmd.file cpp_source) with
    | none => Except.error "reference cpp not found in compile_commands.json"
    | some command => Except.ok (collectIncludeArgs (split_whitespace command.command))

/-- Helper: a successful lead-in strip exposes the data decomposition. -/
theorem dropPre_eq_some {s p r : String} (h : dropPre s p = some r) :
    s.data = p.data ++ r.data := by
  unfold dropPre at h
  cases h₂ : s.data.dropPrefix? p.data with
  | none => rw [h₂] at h; exact Option.noConfusion h
  | some l =>
    rw [h₂] at h
    rw [List.dropPrefix?_eq_some_iff] at h₂
    obtain ⟨p', hp, he⟩ := h₂
    have h' : some (⟨l⟩ : String) = some r := h
    have hr : r.data = l := by cases h'; rfl
    rw [hr, hp, (beq_iff_eq).mp he]

/-- Helper: a successful trailer strip exposes the data decomposition. -/
theorem dropSuf_eq_some {s p r : String} (h : dropSuf s p = some r) :
    s.data = r.data ++ p.data := by
  unfold dropSuf at h
  cases h₂ : s.data.dropSuffix? p.data with
  | none => rw [h₂] at h; exact Option.noConfusion h
  | some l =>
    rw [h₂] at h
    rw [List.dropSuffix?_eq_some_iff] at h₂
    obtain ⟨s', hp, he⟩ := h₂
    have h' : some (⟨l⟩ : String) = some r := h
    have hr : r.data = l := by cases h'; rfl
    rw [hr, hp, (beq_iff_eq).mp he]

/-- Helper: a decomposable file name necessarily carries the lib lead-in and
a .a or .so trailer. -/
theorem stem_from_fname_shape {f t : String} (h : stem_from_fname f = some t) :
    "lib".data <+: f.data ∧ (".a".data <:+ f.data ∨ ".so".data <:+ f.data) := by
  unfold stem_from_fname at h
  cases h₁ : dropPre f "lib" with
  | none => simp only [h₁] at h; exact Option.noConfusion h
  | some s =>
    simp only [h₁] at h
    have hf : f.data = "lib".data ++ s.data := dropPre_eq_some h₁
    have hsuf : s.data <:+ f.data := hf ▸ List.suffix_append "lib".data s.data
    refine ⟨hf ▸ List.prefix_append "lib".data s.data, ?_⟩
    cases h₂ : dropSuf s ".a" with
    | some t' =>
      have hs : s.data = t'.data ++ ".a".data := dropSuf_eq_some h₂
      exact Or.inl ((hs ▸ List.suffix_append t'.data ".a".data).trans hsuf)
    | none =>
      simp only [h₂] at h
      have hs : s.data = t.data ++ ".so".data := dropSuf_eq_some h
      exact Or.inr ((hs ▸ List.suffix_append t.data ".so".data).trans hsuf)

/-- C8: the Library Name Decomposer maps libboost_filesystem.a to
boost_filesystem and libprotobuf-lite.so to protobuf-lite, and is absent for
any file name without the lib lead-in and a .a or .so trailer, such as
boost_filesystem.txt. -/
theorem C8_decomposer :
    stem_from_lib "libboost_filesystem.a" = some "boost_filesystem"
    ∧ stem_from_lib "libprotobuf-lite.so" = some "protobuf-lite"
    ∧ stem_from_lib "boost_filesystem.txt" = none
    ∧ ∀ f : String,
        ¬("lib".data <+: f.data ∧ (".a".data <:+ f.data ∨ ".so".data <:+ f.data)) →
        stem_from_fname f = none := by
  refine ⟨by decide, by decide, by decide, ?_⟩
  intro f h
  cases heq : stem_from_fname f with
  | none => rfl
  | some t => exact absurd (stem_from_fname_shape heq) h

/-- Witness for C8 at a concrete undecomposable file name. -/
theorem C8_decomposer_witness : stem_from_fname "boost_filesystem.txt" = none :=
  C8_decomposer.2.2.2 "boost_filesystem.txt" (by decide)

/-- C5: the Introspector splits the matched command on whitespace and
collects, in order, the remainder of each -I token and the token following
each exact -isystem token; the given concrete record yields exactly foo then
bar. -/
theorem C5_introspector_tokenization :
    split_whitespace "cc -Ifoo -isystem bar -c config.cc"
      = ["cc", "-Ifoo", "-isystem", "bar", "-c", "config.cc"]
    ∧ collectIncludeArgs ["cc", "-Ifoo", "-isystem", "bar", "-c", "config.cc"]
      = ["foo", "bar"]
    ∧ extract_includes
        (some (some [⟨"cc -Ifoo -isystem bar -c config.cc", "/build/src/config.cc"⟩]))
        "config.cc"
      = Except.ok ["foo", "bar"] :=
  ⟨by decide, by decide, by rfl⟩

/-- C7: the explicit-atomics test holds on armv7-linux-androideabi, fails on
x86_64-unknown-linux-gnu, and the atomic link directive is emitted precisely
when the test holds. -/
theorem C7_atomics :
    needs_explicit_atomics "armv7-linux-androideabi" = true
    ∧ needs_explicit_atomics "x86_64-unknown-linux-gnu" = false
    ∧ ∀ t : String,
        "cargo:rustc-link-lib=atomic" ∈ atomicDirectives t
          ↔ needs_explicit_atomics t = true := by
  refine ⟨by decide, by decide, ?_⟩
  intro t
  cases hn : needs_explicit_atomics t <;> simp [atomicDirectives, hn]

/-- Witness for C7 at the 32-bit ARM Android triple. -/
theorem C7_atomics_witness :
    "cargo:rustc-link-lib=atomic" ∈ atomicDirectives "armv7-linux-androideabi" :=
  (C7_atomics.2.2 "armv7-linux-androideabi").mpr (by decide)

/-- C6: the Environment Resolver checks exactly the candidate list of the
triple-suffixed name then the base name, returns the first set non-empty
value (so the triple-suffixed value wins when both are set non-empty), and
is absent when neither is set non-empty. -/
theorem C6_env_resolver (env : Env) (base t : String) :
    keys base t = [base ++ "_" ++ t, base]
    ∧ (∀ v, env (base ++ "_" ++ t) = some v → v ≠ "" →
        first_env (keys base t) env = some v)
    ∧ ((env (base ++ "_" ++ t) = none ∨ env (base ++ "_" ++ t) = some "") →
        ∀ w, env base = some w → w ≠ "" → first_env (keys base t) env = some w)
    ∧ ((env (base ++ "_" ++ t) = none ∨ env (base ++ "_" ++ t) = some "") →
        (env base = none ∨ env base = some "") →
        first_env (keys base t) env = none) := by
  refine ⟨rfl, ?_, ?_, ?_⟩
  · intro v hv hne
    simp [keys, first_env, hv, hne]
  · rintro (h | h) w hw hne <;> simp [keys, first_env, h, hw, hne]
  · rintro (h | h) (h2 | h2) <;> simp [keys, first_env, h, h2]

/-- Concrete environment for the C6 witness: both the triple-suffixed and
the base variable are set non-empty. -/
def envC6 : Env := fun k =>
  if k = "Boost_ROOT_x86_64_unknown_linux_gnu" then some "/opt/boost-x86"
  else if k = "Boost_ROOT" then some "/opt/boost" else none

/-- Witness for C6: the triple-specific value wins. -/
theorem C6_env_resolver_witness :
    first_env (keys "Boost_ROOT" "x86_64_unknown_linux_gnu") envC6 = some "/opt/boost-x86" :=
  (C6_env_resolver envC6 "Boost_ROOT" "x86_64_unknown_linux_gnu").2.1
    "/opt/boost-x86" (by decide) (by decide)

/-- C4: the Compile-Command Introspector aborts with a descriptive error and
no partial result when the database file is absent, when it fails to parse as
the expected structure, and when no record file field ends with the reference
source file name. -/
theorem C4_introspector_fatal (cmds : List CompileCommand) (cpp : String) :
    extract_includes none cpp = Except.error "compile_commands.json not found"
    ∧ extract_includes (some none) cpp = Except.error "parse compile_commands.json"
    ∧ ((∀ cmd ∈ cmds, strEnds cmd.file cpp = false) →
        extract_includes (some (some cmds)) cpp
          = Except.error "reference cpp not found in compile_commands.json") := by
  refine ⟨rfl, rfl, ?_⟩
  intro h
  have hfind : cmds.find? (fun cmd => strEnds cmd.file cpp) = none :=
    List.find?_eq_none.mpr (by intro x hx; simp [h x hx])
  simp [extract_includes, hfind]

/-- Witness for C4 on a database with one non-matching record. -/
theorem C4_introspector_fatal_witness :
    extract_includes (some (some [⟨"cc -c other.cc", "/build/src/other.cc"⟩])) "config.cc"
      = Except.error "reference cpp not found in compile_commands.json" :=
  (C4_introspector_fatal [⟨"cc -c other.cc", "/build/src/other.cc"⟩] "config.cc").2.2
    (by decide)

/-- C3: on a directory holding both the static and the dynamic artifact, the
desktop locator and the Android locator under default policy return the
static one, and the Android locator under the inverted policy returns the
dynamic one; on a directory holding only the dynamic artifact, every locator
and policy returns it. -/
theorem C3_locator_policy (fs : FileSystem) (d : String) (env : Env) :
    (fs.readDir d = some ["libfoo.a", "libfoo.so"] →
      find_lib_with_pre fs d "foo" = some (pathJoin d "libfoo.a")
      ∧ (android_prefer_dynamic env = false →
          Android.find_lib_with_pre env fs d "foo" = some (pathJoin d "libfoo.a"))
      ∧ (android_prefer_dynamic env = true →
          Android.find_lib_with_pre env fs d "foo" = some (pathJoin d "libfoo.so")))
    ∧ (fs.readDir d = some ["libfoo.so"] →
      find_lib_with_pre fs d "foo" = some (pathJoin d "libfoo.so")
      ∧ Android.find_lib_with_pre env fs d "foo" = some (pathJoin d "libfoo.so")) := by
  constructor
  · intro h
    have hscan : scanLibDir fs d "foo"
        = (some (pathJoin d "libfoo.a"), some (pathJoin d "libfoo.so")) := by
      unfold scanLibDir
      rw [h]
      rfl
    refine ⟨?_, ?_, ?_⟩
    · simp [find_lib_with_pre, hscan]
    · intro hp; simp [Android.find_lib_with_pre, hscan, hp]
    · intro hp; simp [Android.find_lib_with_pre, hscan, hp]
  · intro h
    have hscan : scanLibDir fs d "foo" = (none, some (pathJoin d "libfoo.so")) := by
      unfold scanLibDir
      rw [h]
      rfl
    refine ⟨by simp [find_lib_with_pre, hscan], ?_⟩
    unfold Android.find_lib_with_pre
    rw [hscan]
    cases android_prefer_dynamic env <;> simp

/-- Concrete filesystem for the C3 witness: one directory with both kinds of
the foo artifact. -/
def fsC3 : FileSystem :=
  ⟨fun dd => if dd = "/boost/lib" then some ["libfoo.a", "libfoo.so"] else none,
   fun _ => true⟩

/-- Environment for the C3 witness: the inverted-preference flag is set. -/
def envPreferDyn : Env := fun k =>
  if k = "ANDROID_PREFER_DYNAMIC" then some "1" else none

/-- Witness for C3: with both artifacts present, the inverted policy picks
the dynamic one. -/
theorem C3_locator_policy_witness :
    Android.find_lib_with_pre envPreferDyn fsC3 "/boost/lib" "foo"
      = some "/boost/lib/libfoo.so" :=
  ((C3_locator_policy fsC3 "/boost/lib" envPreferDyn).1 (by decide)).2.2 (by decide)

/-- Filesystem on which nothing exists and no directory reads succeed. -/
def fsNone : FileSystem := ⟨fun _ => none, fun _ => false⟩

/-- Environment for the C1 counterexample: only LZ4_LIBRARY is set, to a
path that does not exist on the filesystem above. -/
def envLZ4 : Env := fun k =>
  if k = "LZ4_LIBRARY" then some "/opt/lz4/lib/liblz4.a" else none

/-- Counterexample to C1: with LZ4_LIBRARY configured to a missing file, the
Android LZ4 section emits only a warning and the desktop LZ4 section emits
nothing, so neither driver emits a bare generic-name link directive for the
LZ4 dependency on this discovery failure. -/
theorem C1_counterexample :
    lz4_lib envLZ4 = some "/opt/lz4/lib/liblz4.a"
    ∧ lz4_dir envLZ4 = none
    ∧ fsNone.pathExists "/opt/lz4/lib/liblz4.a" = false
    ∧ buildLZ4Directives envLZ4 fsNone (lz4_lib envLZ4) (lz4_dir envLZ4)
        = ["cargo:warning=LZ4_LIBRARY set but file not found: /opt/lz4/lib/liblz4.a"]
    ∧ strStarts "cargo:warning=LZ4_LIBRARY set but file not found: /opt/lz4/lib/liblz4.a"
        "cargo:rustc-link-lib" = false
    ∧ mainLZ4Directives fsNone (lz4_lib envLZ4) (lz4_dir envLZ4) = [] := by
  decide

/-- C1 as amended: discovery failure is handled without failing the build in
both drivers, and falls back to a bare generic-name link directive for Boost
components and Protobuf; for LZ4 the generic directive appears only in the
unconfigured Android case and the directory-configured cases, while a
configured LZ4 file path missing on disk yields only a warning in the
Android driver and, in the desktop driver, the directory fallback when
LZ4_DIR is set and no LZ4 directive at all otherwise. -/
theorem C1_fallback_amended (env : Env) (fs : FileSystem) (bl path comp : String)
    (ld? : Option String) :
    (fs.pathExists path = false →
      buildLZ4Directives env fs (some path) ld?
        = ["cargo:warning=LZ4_LIBRARY set but file not found: " ++ path])
    ∧ (fs.pathExists path = false →
      mainLZ4Directives fs (some path) ld?
        = match ld? with
          | some ld =>
            ["cargo:rustc-link-search=native=" ++ ld ++ "/lib",
             "cargo:rustc-link-lib=static=lz4"]
          | none => [])
    ∧ mainLZ4Directives fs none none
        = ["cargo:warning=LZ4 not explicitly provided; make sure the linker can find it."]
    ∧ buildLZ4Directives env fs none none = ["cargo:rustc-link-lib=lz4"]
    ∧ (comp ∈ boost_components → find_lib_with_pre fs bl ("boost_" ++ comp) = none →
        "cargo:rustc-link-lib=static=boost_" ++ comp ∈ mainBoostDirectives fs bl)
    ∧ (comp ∈ boost_components →
        Android.find_lib_with_pre env fs bl ("boost_" ++ comp) = none →
        "cargo:rustc-link-lib=boost_" ++ comp ∈ buildBoostDirectives env fs bl)
    ∧ mainProtobufDirectives fs none none none = ["cargo:rustc-link-lib=static=protobuf-lite"]
    ∧ (fs.pathExists path = false →
        mainProtobufDirectives fs (some path) none none
          = ["cargo:rustc-link-lib=static=protobuf-lite"])
    ∧ buildProtobufDirectives env fs none none (pb_component env)
        = ["cargo:rustc-link-lib=" ++ pb_component env]
    ∧ (fs.pathExists path = false →
        buildProtobufDirectives env fs (some path) ld? (pb_component env)
          = ["cargo:rustc-link-search=native=" ++ dir_of path,
             "cargo:rustc-link-lib=" ++ pb_component env]) := by
  refine ⟨?_, ?_, rfl, rfl, ?_, ?_, rfl, ?_, rfl, ?_⟩
  · intro h; simp [buildLZ4Directives, h]
  · intro h; cases ld? <;> simp [mainLZ4Directives, h]
  · intro hc hf
    simp only [mainBoostDirectives, List.mem_flatMap]
    exact ⟨comp, hc, by simp [hf]⟩
  · intro hc hf
    simp only [buildBoostDirectives, List.mem_flatMap]
    exact ⟨comp, hc, by simp [hf]⟩
  · intro h; simp [mainProtobufDirectives, h]
  · intro h; simp [buildProtobufDirectives, h]

/-- Witness for C1 as amended: the Android warning-only outcome at a
concrete missing file. -/
theorem C1_fallback_amended_witness :
    buildLZ4Directives envLZ4 fsNone (some "/opt/lz4/lib/liblz4.a") none
      = ["cargo:warning=LZ4_LIBRARY set but file not found: /opt/lz4/lib/liblz4.a"] :=
  (C1_fallback_amended envLZ4 fsNone "/b" "/opt/lz4/lib/liblz4.a" "filesystem" none).1
    (by decide)

/-- Environment for the C2 counterexample: a generic desktop triple with
CXX_STDLIB unset. -/
def envC2 : Env := fun k =>
  if k = "TARGET" then some "x86_64-unknown-linux-gnu" else none

/-- Counterexample to C2: on the desktop driver the default C++ runtime link
name for a non-Android, non-Apple triple is the shared C++ runtime name, not
the standard GNU one. -/
theorem C2_counterexample :
    envC2 "CXX_STDLIB" = none
    ∧ targetOf envC2 = "x86_64-unknown-linux-gnu"
    ∧ main_cxx_stdlib envC2 = "c++_shared"
    ∧ main_cxx_stdlib envC2 ≠ "stdc++" := by
  decide

/-- C2 as amended: CXX_STDLIB overrides both drivers; with it unset, the
Android driver defaults by triple marker (Android to the shared C++ runtime
name, Apple to the platform C++ runtime, otherwise the standard GNU name)
while the desktop driver defaults to the shared C++ runtime name for every
triple. -/
theorem C2_cxx_stdlib_amended (env : Env) :
    (∀ v, env "CXX_STDLIB" = some v →
      build_cxx_stdlib env = v ∧ main_cxx_stdlib env = v)
    ∧ (env "CXX_STDLIB" = none →
        main_cxx_stdlib env = "c++_shared"
        ∧ (strContains (targetOf env) "android" = true →
            build_cxx_stdlib env = "c++_shared")
        ∧ (strContains (targetOf env) "android" = false →
            strContains (targetOf env) "apple" = true → build_cxx_stdlib env = "c++")
        ∧ (strContains (targetOf env) "android" = false →
            strContains (targetOf env) "apple" = false →
            build_cxx_stdlib env = "stdc++")) := by
  constructor
  · intro v hv
    exact ⟨by simp [build_cxx_stdlib, hv], by simp [main_cxx_stdlib, hv]⟩
  · intro h
    refine ⟨by simp [main_cxx_stdlib, h], ?_, ?_, ?_⟩
    · intro h1; simp [build_cxx_stdlib, h, h1]
    · intro h1 h2; simp [build_cxx_stdlib, h, h1, h2]
    · intro h1 h2; simp [build_cxx_stdlib, h, h1, h2]

/-- Environment for the C2 witness: an Apple triple with CXX_STDLIB unset. -/
def envApple : Env := fun k =>
  if k = "TARGET" then some "aarch64-apple-darwin" else none

/-- Witness for C2 as amended: the Android driver picks the platform C++
runtime on an Apple triple. -/
theorem C2_cxx_stdlib_amended_witness : build_cxx_stdlib envApple = "c++" :=
  (((C2_cxx_stdlib_amended envApple).2 (by decide)).2.2.1 (by decide) (by decide))

/-- C9: the full linker-directive stream of each driver is a deterministic
function of the process environment, the filesystem state and the native
build output directory: two runs over identical state emit identical ordered
directive sequences. -/
theorem C9_determinism (env₁ env₂ : Env) (fs₁ fs₂ : FileSystem) (dst₁ dst₂ : String)
    (henv : env₁ = env₂) (hfs : fs₁ = fs₂) (hdst : dst₁ = dst₂) :
    mainLinkerDirectives env₁ fs₁ dst₁ = mainLinkerDirectives env₂ fs₂ dst₂
    ∧ buildLinkerDirectives env₁ fs₁ dst₁ = buildLinkerDirectives env₂ fs₂ dst₂ := by
  subst henv
  subst hfs
  subst hdst
  exact ⟨rfl, rfl⟩

/-- Witness for C9 at one concrete state, run twice. -/
theorem C9_determinism_witness :
    mainLinkerDirectives envC2 fsC3 "/out" = mainLinkerDirectives envC2 fsC3 "/out"
    ∧ buildLinkerDirectives envC2 fsC3 "/out" = buildLinkerDirectives envC2 fsC3 "/out" :=
  C9_determinism envC2 envC2 fsC3 fsC3 "/out" "/out" rfl rfl rfl

/-- C10: in the desktop Boost loop a located dynamic artifact still yields a
static-kind link directive with the .so stem, while the Android print_link_for
emits the kind matching the artifact extension (plain for .so, static for
.a). -/
theorem C10_desktop_static_kind (fs : FileSystem) (bl comp p stem q st : String)
    (hc : comp ∈ boost_components)
    (hf : find_lib_with_pre fs bl ("boost_" ++ comp) = some p)
    (hk : lib_kind p = some LibKind.Dylib)
    (hs : stem_from_lib p = some stem)
    (hkq : lib_kind q = some LibKind.Static)
    (hsq : stem_from_lib q = some st) :
    "cargo:rustc-link-lib=static=" ++ stem ∈ mainBoostDirectives fs bl
    ∧ print_link_for p = ["cargo:rustc-link-lib=" ++ stem]
    ∧ print_link_for q = ["cargo:rustc-link-lib=static=" ++ st] := by
  refine ⟨?_, ?_, ?_⟩
  · simp only [mainBoostDirectives, List.mem_flatMap]
    exact ⟨comp, hc, by simp [hf, hs]⟩
  · simp [print_link_for, hk, hs]
  · simp [print_link_for, hkq, hsq]

/-- Concrete filesystem for the C10 witness: a Boost library directory in
which only the dynamic filesystem component artifact exists. -/
def fsC10 : FileSystem :=
  ⟨fun dd => if dd = "/deps/lib" then some ["libboost_filesystem.so"] else none,
   fun _ => true⟩

/-- Witness for C10: the desktop loop emits the static-kind directive for
the located .so artifact. -/
theorem C10_desktop_static_kind_witness :
    "cargo:rustc-link-lib=static=" ++ "boost_filesystem"
      ∈ mainBoostDirectives fsC10 "/deps/lib" :=
  (C10_desktop_static_kind fsC10 "/deps/lib" "filesystem"
    "/deps/lib/libboost_filesystem.so" "boost_filesystem"
    "/deps/lib/libboost_system.a" "boost_system"
    (by decide) (by decide) (by decide) (by decide) (by decide) (by decide)).1
